import Mathlib

/-!
# memcached_exporter: the start-up program `cmd/memcached_exporter/main.go`

A shallow embedding of `main`: the parsed command-line flags are the input, the
calls `main` makes into its collaborators (logger, TLS configuration loader,
metrics registry, HTTP mux, web server) are recorded in order as a trace, and
the way the process stops is the result.

Go strings are embedded as Lean strings.  The only string operation `main`
performs is a split at the one-byte separator ":"; on text that is valid UTF-8
a split at an ASCII byte and a split at the corresponding character agree.
-/

namespace MemcachedExporter

/-! ## Go standard library: `strings.Split` with a one-byte separator -/

/-- Go `strings.IndexByte`: position of the first `c` in `s`; `none` stands for
the result `-1`. -/
def IndexByteString : List Char → Char → Option Nat
  | [], _ => none
  | x :: xs, c =>
    if x = c then some 0
    else
      match IndexByteString xs c with
      | none => none
      | some m => some (m + 1)

/-- Go `strings.Count` for a one-byte `substr`: the number of occurrences. -/
def CountString : List Char → Char → Nat
  | [], _ => 0
  | x :: xs, c => if x = c then CountString xs c + 1 else CountString xs c

/-- The loop of Go `genSplit`, with `k` the remaining number of iterations
(`n - i` in the source): cut at the next separator, or stop when none is left.
The last element is the rest of the string (`a[i] = s`). -/
def genSplitLoop (c : Char) : Nat → List Char → List (List Char)
  | 0, s => [s]
  | k + 1, s =>
    match IndexByteString s c with
    | none => [s]
    | some m => s.take m :: genSplitLoop c k (s.drop (m + 1))

/-- Go `genSplit(s, sep, 0, -1)` for a one-byte separator:
`n = Count(s, sep) + 1`, capped at `len(s) + 1`, then `n - 1` turns of the
loop. -/
def genSplit (s : List Char) (c : Char) : List (List Char) :=
  let n := CountString s c + 1
  let n := if n > s.length + 1 then s.length + 1 else n
  genSplitLoop c (n - 1) s

/-- Go `strings.Split(s, sep)` where `sep` is the one-byte string made of `sep`. -/
def Split (s : String) (sep : Char) : List String :=
  (genSplit s.data sep).map String.mk

/-! ## The flags of `main` (source lines 38-51) -/

/-- Go `time.Duration`: a number of nanoseconds. -/
abbrev Duration := Int

/-- Go `time.Second`. -/
def Second : Duration := 1000000000

/-- The values of the flag variables of `main` after `kingpin.Parse()`. -/
structure Flags where
  address : String
  timeout : Duration
  pidFile : String
  enableTls : Bool
  certfile : String
  keyfile : String
  cafile : String
  skipVerify : Bool
  serverName : String
  webConfig : String
  listenAddress : String
  metricsPath : String
  deriving DecidableEq, Repr

/-- The flag values when the command line gives no flag: each `Default(...)` of
the source, `false` for the two `Bool()` flags (which declare no default), and
the library's empty default for the web configuration file; `Default("1s")` of
the `Duration()` flag is one second. -/
def defaultFlags : Flags :=
  { address := "localhost:11211"
    timeout := Second
    pidFile := ""
    enableTls := false
    certfile := ""
    keyfile := ""
    cafile := ""
    skipVerify := false
    serverName := ""
    webConfig := ""
    listenAddress := ":9150"
    metricsPath := "/metrics" }

/-! ## The collaborators of `main` -/

/-- The struct `promconfig.TLSConfig`, with the fields that `main` sets. -/
structure TLSConfig where
  CAFile : String
  CertFile : String
  KeyFile : String
  ServerName : String
  InsecureSkipVerify : Bool
  deriving DecidableEq, Repr

/-- A metrics registry: the process-wide `prometheus.DefaultRegisterer` /
`prometheus.DefaultGatherer`, or a registry built by `prometheus.NewRegistry()`
(numbered in order of construction). -/
inductive Registry where
  | default
  | constructed (id : Nat)
  deriving DecidableEq, Repr

/-- A PID function; `main` only builds `prometheus.NewPidFileFn(path)`. -/
inductive PidFn where
  | NewPidFileFn (path : String)
  deriving DecidableEq, Repr

/-- The struct `collectors.ProcessCollectorOpts`, with the fields that `main`
sets. -/
structure ProcessCollectorOpts where
  PidFn : PidFn
  Namespace : String
  deriving DecidableEq, Repr

/-- The collectors that `main` constructs, each with the arguments of its
constructor call (the logger apart); `C` is the type of a loaded `*tls.Config`,
and `none` is the nil pointer. -/
inductive Collector (C : Type) where
  | versionCollector (program : String)
  | exporterNew (address : String) (timeout : Duration) (tlsConfig : Option C)
  | processCollector (opts : ProcessCollectorOpts)
  deriving DecidableEq, Repr

/-- The HTTP handlers that `main` installs: `promhttp.Handler()`, which serves
the metrics gathered from a registry, and the landing page with its body. -/
inductive Handler where
  | metrics (gatherer : Registry)
  | page (body : String)
  deriving DecidableEq, Repr

/-- Log levels used by `main`. -/
inductive Level where
  | info
  | error
  deriving DecidableEq, Repr

/-- One call of `main` into a collaborator. -/
inductive Event (C : Type) where
  | log (lvl : Level) (msg : String) (keyvals : List (String × String))
  | NewTLSConfig (cfg : TLSConfig)
  | NewRegistry (id : Nat)
  | MustRegister (reg : Registry) (c : Collector C)
  | Handle (pattern : String) (h : Handler)
  | ListenAndServe (addr : String) (webConfig : String)
  deriving DecidableEq, Repr

/-- The panics `main` can run into: the index expression of line 63, and the
two panics of `(*ServeMux).Handle` behind `http.Handle` and `http.HandleFunc`
("http: invalid pattern", "http: multiple registrations for" a pattern). -/
inductive Panic where
  | indexOutOfRange
  | invalidPattern
  | multipleRegistrations (pattern : String)
  deriving DecidableEq, Repr

/-- How `main` stops: it returns, it calls `os.Exit(code)`, or it panics. -/
inductive Outcome where
  | returned
  | exited (code : Nat)
  | panicked (p : Panic)
  deriving DecidableEq, Repr

/-- One run of `main`: the calls made, in order, and how it stopped. -/
structure Run (C : Type) where
  trace : List (Event C)
  outcome : Outcome

/-- What `main` cannot decide by itself: the result of loading the TLS material
(`promconfig.NewTLSConfig`, an error text or a `*tls.Config`), the constant
`exporter.Namespace` of package `pkg/exporter`, the error with which
`web.ListenAndServe` comes back (`none` is nil), and the two build strings that
are logged. -/
structure Env (C : Type) where
  NewTLSConfig : TLSConfig → Except String C
  Namespace : String
  ListenAndServe : String → String → Option String
  Info : String
  BuildContext : String

/-- Go `prometheus.MustRegister(c)`: registration on the default registerer. -/
def MustRegister {C : Type} (c : Collector C) : Event C :=
  Event.MustRegister Registry.default c

/-- Go `promhttp.Handler()`: the handler for the default gatherer. -/
def promhttpHandler : Handler :=
  Handler.metrics Registry.default

/-! ## `main`, block by block -/

/-- Lines 62-64: an empty `*serverName` is overwritten with element 0 of
`strings.Split(*address, ":")`; `none` is the index-out-of-range panic. -/
def defaultServerName (flags : Flags) : Option Flags :=
  if flags.serverName = "" then
    match (Split flags.address ':')[0]? with
    | none => none
    | some name => some { flags with serverName := name }
  else some flags

/-- Lines 70-76: the struct literal handed to `promconfig.NewTLSConfig`. -/
def tlsConfigLiteral (flags : Flags) : TLSConfig :=
  { CertFile := flags.certfile
    KeyFile := flags.keyfile
    CAFile := flags.cafile
    ServerName := flags.serverName
    InsecureSkipVerify := flags.skipVerify }

/-- Lines 65-82: `tlsConfig` starts nil; with `*enableTls` the configuration is
loaded, and an error is logged and ends the process with status 1 (the
`Except.error` carries the exit status). -/
def tlsSetup {C : Type} (env : Env C) (flags : Flags) :
    List (Event C) × Except Nat (Option C) :=
  if flags.enableTls then
    match env.NewTLSConfig (tlsConfigLiteral flags) with
    | Except.error err =>
      ([Event.NewTLSConfig (tlsConfigLiteral flags),
        Event.log Level.error "Failed to create TLS config" [("err", err)]],
       Except.error 1)
    | Except.ok cfg => ([Event.NewTLSConfig (tlsConfigLiteral flags)], Except.ok (some cfg))
  else ([], Except.ok none)

/-- Lines 84-93: the version collector, the memcached collector and, with a
non-empty `*pidFile`, the process collector are registered. -/
def registrations {C : Type} (env : Env C) (flags : Flags) (tlsConfig : Option C) :
    List (Event C) :=
  [MustRegister (Collector.versionCollector "memcached_exporter"),
   MustRegister (Collector.exporterNew flags.address flags.timeout tlsConfig)]
  ++
  (if flags.pidFile ≠ "" then
    [MustRegister (Collector.processCollector
      { PidFn := PidFn.NewPidFileFn flags.pidFile, Namespace := env.Namespace })]
   else [])

/-- Lines 97-103: the body of the landing page. -/
def landingPage (metricsPath : String) : String :=
  "<html>\n             <head><title>Memcached Exporter</title></head>\n" ++
  "             <body>\n             <h1>Memcached Exporter</h1>\n" ++
  "             <p><a href=\x27" ++ metricsPath ++ "\x27>Metrics</a></p>\n" ++
  "             </body>\n             </html>"

/-- The patterns registered on a Go `http.ServeMux`. -/
abbrev ServeMux := List String

/-- Go `(*ServeMux).Handle`, which `http.Handle` and `http.HandleFunc` call on
the default mux: it panics on an empty pattern and on a pattern that is already
registered, and registers the pattern otherwise. -/
def ServeMux.Handle (mux : ServeMux) (pattern : String) : Except Panic ServeMux :=
  if pattern = "" then Except.error Panic.invalidPattern
  else if pattern ∈ mux then Except.error (Panic.multipleRegistrations pattern)
  else Except.ok (pattern :: mux)

/-- Lines 95-104: `http.Handle(*metricsPath, promhttp.Handler())`, then
`http.HandleFunc("/", ...)`, on the default mux, which starts without a
pattern.  The result is the handlers installed and the panic, if any, that
stopped the block. -/
def handlers {C : Type} (metricsPath : String) : List (Event C) × Option Panic :=
  match ServeMux.Handle [] metricsPath with
  | Except.error p => ([], some p)
  | Except.ok mux =>
    match ServeMux.Handle mux "/" with
    | Except.error p => ([Event.Handle metricsPath promhttpHandler], some p)
    | Except.ok _ =>
      ([Event.Handle metricsPath promhttpHandler,
        Event.Handle "/" (Handler.page (landingPage metricsPath))], none)

/-- The function `main` after `kingpin.Parse()` (lines 57-111). -/
def main {C : Type} (env : Env C) (flags : Flags) : Run C :=
  let t0 : List (Event C) :=
    [Event.log Level.info "Starting memcached_exporter" [("version", env.Info)],
     Event.log Level.info "Build context" [("context", env.BuildContext)]]
  match defaultServerName flags with
  | none => { trace := t0, outcome := Outcome.panicked Panic.indexOutOfRange }
  | some flags =>
    match tlsSetup env flags with
    | (t1, Except.error code) => { trace := t0 ++ t1, outcome := Outcome.exited code }
    | (t1, Except.ok tlsConfig) =>
      let t2 : List (Event C) := t0 ++ t1 ++ registrations env flags tlsConfig
      match handlers flags.metricsPath with
      | (t3, some p) => { trace := t2 ++ t3, outcome := Outcome.panicked p }
      | (t3, none) =>
        let t4 : List (Event C) :=
          t2 ++ t3 ++
          [Event.log Level.info "Listening on address" [("address", flags.listenAddress)],
           Event.ListenAndServe flags.listenAddress flags.webConfig]
        match env.ListenAndServe flags.listenAddress flags.webConfig with
        | some err =>
          { trace := t4 ++ [Event.log Level.error "Error running HTTP server" [("err", err)]],
            outcome := Outcome.exited 1 }
        | none => { trace := t4, outcome := Outcome.returned }

/-! ## Reading a trace -/

/-- The value of `*serverName` after lines 62-64 (`none`: the panic). -/
def effectiveServerName (flags : Flags) : Option String :=
  (defaultServerName flags).map Flags.serverName

/-- The configurations passed to `promconfig.NewTLSConfig`, in order. -/
def tlsRequests {C : Type} (trace : List (Event C)) : List TLSConfig :=
  trace.filterMap fun e =>
    match e with
    | Event.NewTLSConfig cfg => some cfg
    | _ => none

/-- The registrations made, in order: registry and collector. -/
def registered {C : Type} (trace : List (Event C)) : List (Registry × Collector C) :=
  trace.filterMap fun e =>
    match e with
    | Event.MustRegister reg c => some (reg, c)
    | _ => none

/-- The calls of `exporter.New` whose collector was registered, in order:
address, timeout and TLS configuration. -/
def exporterCalls {C : Type} (trace : List (Event C)) :
    List (String × Duration × Option C) :=
  trace.filterMap fun e =>
    match e with
    | Event.MustRegister _ (Collector.exporterNew a t c) => some (a, t, c)
    | _ => none

/-- The process collectors registered, in order, by their options. -/
def processCollectors {C : Type} (trace : List (Event C)) : List ProcessCollectorOpts :=
  trace.filterMap fun e =>
    match e with
    | Event.MustRegister _ (Collector.processCollector opts) => some opts
    | _ => none

/-- The handlers installed, in order: pattern and handler. -/
def handled {C : Type} (trace : List (Event C)) : List (String × Handler) :=
  trace.filterMap fun e =>
    match e with
    | Event.Handle p h => some (p, h)
    | _ => none

/-- The registries constructed with `prometheus.NewRegistry()`. -/
def constructedRegistries {C : Type} (trace : List (Event C)) : List Nat :=
  trace.filterMap fun e =>
    match e with
    | Event.NewRegistry id => some id
    | _ => none

/-- The listeners started: address and web configuration file. -/
def listeners {C : Type} (trace : List (Event C)) : List (String × String) :=
  trace.filterMap fun e =>
    match e with
    | Event.ListenAndServe a w => some (a, w)
    | _ => none

/-- The run got to the registration of collectors (line 84). -/
def reachesRegistration {C : Type} (r : Run C) : Prop :=
  registered r.trace ≠ []

instance {C : Type} [DecidableEq C] (r : Run C) : Decidable (reachesRegistration r) := by
  unfold reachesRegistration
  infer_instance

/-- The run took the exit of lines 77-80: the TLS failure was logged. -/
def tlsFailureLogged {C : Type} (r : Run C) : Prop :=
  ∃ keyvals, Event.log Level.error "Failed to create TLS config" keyvals ∈ r.trace

/-- An environment in which the TLS material loads (the loaded configuration is
represented by the request itself) and the web server fails to start. -/
def envOk : Env TLSConfig :=
  { NewTLSConfig := fun cfg => Except.ok cfg
    Namespace := "memcached"
    ListenAndServe := fun _ _ => some "listen tcp :9150: bind: address already in use"
    Info := "(version=, branch=, revision=)"
    BuildContext := "(go=, user=, date=)" }

/-- An environment in which loading the TLS material fails. -/
def envTlsFails : Env TLSConfig :=
  { envOk with NewTLSConfig := fun _ => Except.error "unable to load specified CA cert" }

/-- An environment for a machine on which none of the TLS files can be read,
after the checks of `promconfig.NewTLSConfig`: a named CA file fails to load; a
certificate named without a key, or a key without a certificate, is refused
before any file is opened; a named pair fails to load; with no file named the
configuration is returned. -/
def envNoTlsFiles : Env TLSConfig :=
  { envOk with
    NewTLSConfig := fun cfg =>
      if cfg.CAFile ≠ "" then Except.error "unable to load specified CA cert"
      else if cfg.CertFile ≠ "" ∧ cfg.KeyFile = "" then
        Except.error "client cert file specified without client key file"
      else if cfg.KeyFile ≠ "" ∧ cfg.CertFile = "" then
        Except.error "client key file specified without client cert file"
      else if cfg.CertFile ≠ "" ∧ cfg.KeyFile ≠ "" then
        Except.error "unable to read specified client cert"
      else Except.ok cfg }

end MemcachedExporter

namespace MemcachedExporter

/-! ## `strings.Split`: element 0 -/

theorem indexByteString_none {s : List Char} {c : Char}
    (h : IndexByteString s c = none) : c ∉ s := by
  induction s with
  | nil => simp
  | cons x xs ih =>
    unfold IndexByteString at h
    by_cases hx : x = c
    · simp [hx] at h
    · simp only [hx, if_false] at h
      cases hi : IndexByteString xs c with
      | none =>
        have := ih hi
        simp only [List.mem_cons, not_or]
        exact ⟨fun e => hx e.symm, this⟩
      | some m => simp [hi] at h

theorem indexByteString_some {s : List Char} {c : Char} {m : Nat}
    (h : IndexByteString s c = some m) :
    s.take m = s.takeWhile (fun x => decide (x ≠ c)) := by
  induction s generalizing m with
  | nil => simp [IndexByteString] at h
  | cons x xs ih =>
    unfold IndexByteString at h
    by_cases hx : x = c
    · simp only [hx, if_true, Option.some.injEq] at h
      subst h
      simp [List.takeWhile, hx]
    · simp only [hx, if_false] at h
      cases hi : IndexByteString xs c with
      | none => simp [hi] at h
      | some k =>
        simp only [hi, Option.some.injEq] at h
        subst h
        simp [List.takeWhile, hx, ih hi]

theorem countString_zero {s : List Char} {c : Char}
    (h : CountString s c = 0) : c ∉ s := by
  induction s with
  | nil => simp
  | cons x xs ih =>
    unfold CountString at h
    by_cases hx : x = c
    · simp [hx] at h
    · simp only [hx, if_false] at h
      simp only [List.mem_cons, not_or]
      exact ⟨fun e => hx e.symm, ih h⟩

theorem countString_le (s : List Char) (c : Char) : CountString s c ≤ s.length := by
  induction s with
  | nil => simp [CountString]
  | cons x xs ih =>
    unfold CountString
    split <;> simp <;> omega

theorem takeWhile_of_not_mem {s : List Char} {c : Char} (h : c ∉ s) :
    s.takeWhile (fun x => decide (x ≠ c)) = s := by
  induction s with
  | nil => rfl
  | cons x xs ih =>
    simp only [List.mem_cons, not_or] at h
    have hx : x ≠ c := fun e => h.1 e.symm
    rw [List.takeWhile_cons_of_pos (by simpa using hx), ih h.2]

theorem genSplitLoop_zero (c : Char) (k : Nat) (s : List Char) (h : k = 0 → c ∉ s) :
    (genSplitLoop c k s)[0]? = some (s.takeWhile (fun x => decide (x ≠ c))) := by
  cases k with
  | zero =>
    rw [takeWhile_of_not_mem (h rfl)]
    rfl
  | succ k =>
    unfold genSplitLoop
    cases hi : IndexByteString s c with
    | none =>
      rw [takeWhile_of_not_mem (indexByteString_none hi)]
      rfl
    | some m =>
      rw [← indexByteString_some hi]
      simp only [List.getElem?_cons_zero]

theorem genSplit_zero (s : List Char) (c : Char) :
    (genSplit s c)[0]? = some (s.takeWhile (fun x => decide (x ≠ c))) := by
  unfold genSplit
  have hle := countString_le s c
  apply genSplitLoop_zero
  intro h0
  apply countString_zero
  simp only at h0
  split at h0 <;> omega

theorem split_zero (s : String) (c : Char) :
    (Split s c)[0]? = some (String.mk (s.data.takeWhile (fun x => decide (x ≠ c)))) := by
  simp [Split, genSplit_zero]

theorem takeWhile_ne_prefix_max (c : Char) (s p : List Char)
    (hp : p <+: s) (hc : c ∉ p) :
    p <+: s.takeWhile (fun x => decide (x ≠ c)) := by
  induction s generalizing p with
  | nil =>
    have : p = [] := List.prefix_nil.mp hp
    subst this
    exact List.nil_prefix
  | cons x xs ih =>
    cases p with
    | nil => exact List.nil_prefix
    | cons y ys =>
      obtain ⟨hxy, hys⟩ := List.cons_prefix_cons.mp hp
      subst hxy
      simp only [List.mem_cons, not_or] at hc
      have hy : y ≠ c := fun e => hc.1 e.symm
      rw [List.takeWhile_cons_of_pos (by simpa using hy)]
      exact List.cons_prefix_cons.mpr ⟨rfl, ih ys hys hc.2⟩

theorem takeWhile_ne_not_mem (c : Char) (s : List Char) :
    c ∉ s.takeWhile (fun x => decide (x ≠ c)) := by
  intro h
  have := List.mem_takeWhile_imp h
  simp at this

theorem takeWhile_ne_before_first (c : Char) (s : List Char) (h : c ∈ s) :
    ∃ rest, s = s.takeWhile (fun x => decide (x ≠ c)) ++ c :: rest := by
  induction s with
  | nil => simp at h
  | cons x xs ih =>
    by_cases hx : x = c
    · subst hx
      exact ⟨xs, by simp [List.takeWhile]⟩
    · have hmem : c ∈ xs := by
        rcases List.mem_cons.mp h with e | e
        · exact absurd e.symm hx
        · exact e
      obtain ⟨rest, hrest⟩ := ih hmem
      refine ⟨rest, ?_⟩
      rw [List.takeWhile_cons_of_pos (by simpa using hx), List.cons_append, ← hrest]

theorem takeWhile_ne_append (c : Char) (host port : List Char) (h : c ∉ host) :
    (host ++ c :: port).takeWhile (fun x => decide (x ≠ c)) = host := by
  induction host with
  | nil => simp [List.takeWhile]
  | cons x xs ih =>
    simp only [List.mem_cons, not_or] at h
    have hx : x ≠ c := fun e => h.1 e.symm
    rw [List.cons_append, List.takeWhile_cons_of_pos (by simpa using hx), ih h.2]

/-! ## Lines 62-64: the server name -/

theorem defaultServerName_some (flags : Flags) :
    ∃ name : String,
      defaultServerName flags = some { flags with serverName := name } ∧
      (flags.serverName ≠ "" → name = flags.serverName) ∧
      (flags.serverName = "" →
        name = String.mk (flags.address.data.takeWhile (fun x => decide (x ≠ ':')))) := by
  by_cases h : flags.serverName = ""
  · refine ⟨String.mk (flags.address.data.takeWhile (fun x => decide (x ≠ ':'))), ?_, ?_, ?_⟩
    · unfold defaultServerName
      rw [if_pos h, split_zero]
    · intro h2
      exact absurd h h2
    · intro _
      rfl
  · refine ⟨flags.serverName, ?_, ?_, ?_⟩
    · unfold defaultServerName
      rw [if_neg h]
    · intro _
      rfl
    · intro h2
      exact absurd h2 h

/-! ## Lines 95-104: the handlers -/

theorem handlers_cases {C : Type} (metricsPath : String) :
    handlers metricsPath = (([] : List (Event C)), some Panic.invalidPattern) ∨
    handlers metricsPath =
      ([(Event.Handle metricsPath promhttpHandler : Event C)],
       some (Panic.multipleRegistrations "/")) ∨
    handlers metricsPath =
      ([(Event.Handle metricsPath promhttpHandler : Event C),
        Event.Handle "/" (Handler.page (landingPage metricsPath))], none) := by
  by_cases h1 : metricsPath = ""
  · left
    simp [handlers, ServeMux.Handle, h1]
  · by_cases h2 : "/" = metricsPath
    · right; left
      simp [handlers, ServeMux.Handle, h1, h2]
    · right; right
      simp [handlers, ServeMux.Handle, h1, h2]

/-! ## Claims -/

/-- C1: with TLS enabled, `promconfig.NewTLSConfig` is called exactly once, and
the configuration it receives has `CertFile`, `KeyFile`, `CAFile` and
`InsecureSkipVerify` equal to the flags `certfile`, `keyfile`, `cafile` and
`skipVerify`, and `ServerName` equal to the server name in effect after lines
62-64. -/
theorem tls_request_carries_flags {C : Type} (env : Env C) (flags : Flags)
    (h : flags.enableTls = true) :
    ∃ name : String,
      effectiveServerName flags = some name ∧
      tlsRequests (main env flags).trace =
        [{ CertFile := flags.certfile
           KeyFile := flags.keyfile
           CAFile := flags.cafile
           ServerName := name
           InsecureSkipVerify := flags.skipVerify }] := by
  obtain ⟨name, hd, -, -⟩ := defaultServerName_some flags
  refine ⟨name, by simp [effectiveServerName, hd], ?_⟩
  simp only [main, hd, tlsSetup, h, if_true, tlsConfigLiteral]
  cases env.NewTLSConfig _ with
  | error err => simp [tlsRequests]
  | ok cfg =>
    rcases handlers_cases (C := C) flags.metricsPath with hh | hh | hh <;>
      simp only [hh] <;>
      cases env.ListenAndServe flags.listenAddress flags.webConfig <;>
      simp [tlsRequests, registrations, MustRegister, List.filterMap_append]

/-- C1, at a concrete input: TLS enabled with all five values given. -/
theorem tls_request_carries_flags_witness :
    ∃ name : String,
      effectiveServerName
        { defaultFlags with
          enableTls := true, certfile := "c.pem", keyfile := "k.pem", cafile := "ca.pem",
          skipVerify := true, serverName := "cache.example" } = some name ∧
      tlsRequests (main envOk
        { defaultFlags with
          enableTls := true, certfile := "c.pem", keyfile := "k.pem", cafile := "ca.pem",
          skipVerify := true, serverName := "cache.example" }).trace =
        [{ CertFile := "c.pem"
           KeyFile := "k.pem"
           CAFile := "ca.pem"
           ServerName := name
           InsecureSkipVerify := true }] :=
  tls_request_carries_flags envOk
    { defaultFlags with
      enableTls := true, certfile := "c.pem", keyfile := "k.pem", cafile := "ca.pem",
      skipVerify := true, serverName := "cache.example" } rfl

/-- C2: with `memcached.tls.enable` false, whatever the other flags, the
memcached collector is built once, with the flag address and timeout and a nil
TLS configuration; `promconfig.NewTLSConfig` is not called; and the TLS failure
of lines 77-80 is not logged, so that exit is not taken. -/
theorem tls_disabled_gives_nil_config {C : Type} (env : Env C) (flags : Flags)
    (h : flags.enableTls = false) :
    exporterCalls (main env flags).trace = [(flags.address, flags.timeout, none)] ∧
    tlsRequests (main env flags).trace = [] ∧
    ¬ tlsFailureLogged (main env flags) := by
  obtain ⟨name, hd, -, -⟩ := defaultServerName_some flags
  simp only [main, hd, tlsSetup, h, tlsFailureLogged]
  rcases handlers_cases (C := C) flags.metricsPath with hh | hh | hh <;>
    simp only [hh] <;>
    cases env.ListenAndServe flags.listenAddress flags.webConfig <;>
    simp [tlsRequests, exporterCalls, registrations, MustRegister,
      List.filterMap_append]

/-- C2, at a concrete input: TLS disabled while every TLS value is given. -/
theorem tls_disabled_gives_nil_config_witness :
    exporterCalls (main envTlsFails
      { defaultFlags with
        certfile := "c.pem", keyfile := "k.pem", cafile := "ca.pem",
        skipVerify := true, serverName := "cache.example" }).trace =
      [("localhost:11211", Second, none)] ∧
    tlsRequests (main envTlsFails
      { defaultFlags with
        certfile := "c.pem", keyfile := "k.pem", cafile := "ca.pem",
        skipVerify := true, serverName := "cache.example" }).trace = [] ∧
    ¬ tlsFailureLogged (main envTlsFails
      { defaultFlags with
        certfile := "c.pem", keyfile := "k.pem", cafile := "ca.pem",
        skipVerify := true, serverName := "cache.example" }) :=
  tls_disabled_gives_nil_config envTlsFails
    { defaultFlags with
      certfile := "c.pem", keyfile := "k.pem", cafile := "ca.pem",
      skipVerify := true, serverName := "cache.example" } rfl

/-- C3: a non-empty `memcached.tls.servername` stays as given after lines 62-64,
and for every address the `ServerName` of each configuration passed to
`promconfig.NewTLSConfig` is that value: one request with TLS enabled, none
without. -/
theorem given_server_name_is_used {C : Type} (env : Env C) (flags : Flags)
    (h : flags.serverName ≠ "") :
    ∀ address : String,
      effectiveServerName { flags with address := address } = some flags.serverName ∧
      (tlsRequests (main env { flags with address := address }).trace).map
          TLSConfig.ServerName =
        if flags.enableTls = true then [flags.serverName] else [] := by
  intro address
  obtain ⟨name, hd, hname, -⟩ := defaultServerName_some { flags with address := address }
  have hn : name = flags.serverName := hname h
  subst hn
  refine ⟨by simp [effectiveServerName, hd], ?_⟩
  simp only [main, hd, tlsSetup, tlsConfigLiteral]
  by_cases ht : flags.enableTls = true
  · simp only [ht, if_true]
    cases env.NewTLSConfig _ with
    | error err => simp [tlsRequests]
    | ok cfg =>
      rcases handlers_cases (C := C) flags.metricsPath with hh | hh | hh <;>
        simp only [hh] <;>
        cases env.ListenAndServe flags.listenAddress flags.webConfig <;>
        simp [tlsRequests, registrations, MustRegister, List.filterMap_append]
  · simp only [ht, if_false]
    rcases handlers_cases (C := C) flags.metricsPath with hh | hh | hh <;>
      simp only [hh] <;>
      cases env.ListenAndServe flags.listenAddress flags.webConfig <;>
      simp [tlsRequests, registrations, MustRegister, List.filterMap_append]

/-- C3, at a concrete input: server name "cache.example", TLS enabled, and an
address with another host. -/
theorem given_server_name_is_used_witness :
    effectiveServerName
      { { defaultFlags with enableTls := true, serverName := "cache.example" } with
        address := "10.0.0.7:11211" } = some "cache.example" ∧
    (tlsRequests (main envOk
      { { defaultFlags with enableTls := true, serverName := "cache.example" } with
        address := "10.0.0.7:11211" }).trace).map TLSConfig.ServerName =
      ["cache.example"] :=
  given_server_name_is_used envOk
    { defaultFlags with enableTls := true, serverName := "cache.example" } (by decide)
    "10.0.0.7:11211"

/-- C4: in every run that reaches registration, `exporter.New` is called once,
with the flag address and the flag timeout; and lines 62-64, which derive the
default server name from the address, leave address and timeout as they were. -/
theorem exporter_gets_address_and_timeout {C : Type} (env : Env C) (flags : Flags)
    (h : reachesRegistration (main env flags)) :
    (∃ tlsConfig : Option C,
      exporterCalls (main env flags).trace = [(flags.address, flags.timeout, tlsConfig)]) ∧
    (∃ flags1 : Flags,
      defaultServerName flags = some flags1 ∧
      flags1.address = flags.address ∧ flags1.timeout = flags.timeout) := by
  obtain ⟨name, hd, -, -⟩ := defaultServerName_some flags
  refine ⟨?_, ⟨_, hd, rfl, rfl⟩⟩
  revert h
  simp only [main, hd, tlsSetup, tlsConfigLiteral, reachesRegistration]
  by_cases ht : flags.enableTls = true
  · simp only [ht, if_true]
    cases env.NewTLSConfig _ with
    | error err => simp [registered]
    | ok cfg =>
      rcases handlers_cases (C := C) flags.metricsPath with hh | hh | hh <;>
        simp only [hh] <;>
        cases env.ListenAndServe flags.listenAddress flags.webConfig <;>
        simp [exporterCalls, registrations, MustRegister, List.filterMap_append]
  · simp only [ht, if_false]
    rcases handlers_cases (C := C) flags.metricsPath with hh | hh | hh <;>
      simp only [hh] <;>
      cases env.ListenAndServe flags.listenAddress flags.webConfig <;>
      simp [exporterCalls, registrations, MustRegister, List.filterMap_append]

/-- C4, at a concrete input: the defaults, where the server name is derived
from the address. -/
theorem exporter_gets_address_and_timeout_witness :
    reachesRegistration (main envOk defaultFlags) ∧
    (∃ tlsConfig : Option TLSConfig,
      exporterCalls (main envOk defaultFlags).trace =
        [("localhost:11211", Second, tlsConfig)]) ∧
    (∃ flags1 : Flags,
      defaultServerName defaultFlags = some flags1 ∧
      flags1.address = "localhost:11211" ∧ flags1.timeout = Second) :=
  ⟨by decide, exporter_gets_address_and_timeout envOk defaultFlags (by decide)⟩

/-- C5, as stated, fails: with TLS enabled, a CA file named that cannot be read
(`--memcached.tls.enable --memcached.tls.cafile=/nonexistent/ca.pem`) and a
non-empty PID file path, `promconfig.NewTLSConfig` returns an error, the process
exits with status 1 at line 79 and no process collector is registered, so
"registered if and only if the path is non-empty" does not hold of this run. -/
theorem process_collector_counterexample :
    ¬ (processCollectors (main envNoTlsFiles
          { defaultFlags with
            enableTls := true, cafile := "/nonexistent/ca.pem",
            pidFile := "/var/run/memcached.pid" }).trace ≠ []
        ↔ ({ defaultFlags with
              enableTls := true, cafile := "/nonexistent/ca.pem",
              pidFile := "/var/run/memcached.pid" } : Flags).pidFile ≠ "") ∧
    (main envNoTlsFiles
      { defaultFlags with
        enableTls := true, cafile := "/nonexistent/ca.pem",
        pidFile := "/var/run/memcached.pid" }).outcome = Outcome.exited 1 := by
  decide

/-- C5, amended: in every run that reaches registration, a process collector is
registered if and only if `memcached.pid-file` is non-empty; when it is, exactly
one is registered, built with the PID function of that path and the namespace
`exporter.Namespace` (the namespace prefix of the core); when it is empty, none
is. -/
theorem process_collector_keyed_off_pid_file {C : Type} (env : Env C) (flags : Flags)
    (h : reachesRegistration (main env flags)) :
    (processCollectors (main env flags).trace ≠ [] ↔ flags.pidFile ≠ "") ∧
    processCollectors (main env flags).trace =
      if flags.pidFile ≠ "" then
        [{ PidFn := PidFn.NewPidFileFn flags.pidFile, Namespace := env.Namespace }]
      else [] := by
  obtain ⟨name, hd, -, -⟩ := defaultServerName_some flags
  revert h
  simp only [main, hd, tlsSetup, tlsConfigLiteral, reachesRegistration]
  by_cases ht : flags.enableTls = true
  · simp only [ht, if_true]
    cases env.NewTLSConfig _ with
    | error err => simp [registered]
    | ok cfg =>
      rcases handlers_cases (C := C) flags.metricsPath with hh | hh | hh <;>
        simp only [hh] <;>
        cases env.ListenAndServe flags.listenAddress flags.webConfig <;>
        by_cases hp : flags.pidFile = "" <;>
        simp [processCollectors, registrations, MustRegister,
          List.filterMap_append, hp]
  · simp only [ht, if_false]
    rcases handlers_cases (C := C) flags.metricsPath with hh | hh | hh <;>
      simp only [hh] <;>
      cases env.ListenAndServe flags.listenAddress flags.webConfig <;>
      by_cases hp : flags.pidFile = "" <;>
      simp [processCollectors, registrations, MustRegister,
        List.filterMap_append, hp]

/-- C5 amended, at a concrete input: a PID file path and TLS loaded. -/
theorem process_collector_keyed_off_pid_file_witness :
    reachesRegistration (main envOk
      { defaultFlags with enableTls := true, pidFile := "/var/run/memcached.pid" }) ∧
    processCollectors (main envOk
      { defaultFlags with enableTls := true, pidFile := "/var/run/memcached.pid" }).trace =
      [{ PidFn := PidFn.NewPidFileFn "/var/run/memcached.pid", Namespace := "memcached" }] :=
  ⟨by decide,
   (process_collector_keyed_off_pid_file envOk
      { defaultFlags with enableTls := true, pidFile := "/var/run/memcached.pid" }
      (by decide)).2⟩

/-- C6: with no flag given the address is "localhost:11211", the timeout one
second, the PID file path empty, TLS disabled, the listen address ":9150" and
the metrics path "/metrics"; under these values the derived server name is
"localhost", and in every environment no process collector is registered and
the memcached collector is built with a nil TLS configuration. -/
theorem default_configuration {C : Type} (env : Env C) :
    defaultFlags.address = "localhost:11211" ∧
    defaultFlags.timeout = 1000000000 ∧
    defaultFlags.pidFile = "" ∧
    defaultFlags.enableTls = false ∧
    defaultFlags.listenAddress = ":9150" ∧
    defaultFlags.metricsPath = "/metrics" ∧
    effectiveServerName defaultFlags = some "localhost" ∧
    processCollectors (main env defaultFlags).trace = [] ∧
    exporterCalls (main env defaultFlags).trace = [("localhost:11211", 1000000000, none)] ∧
    tlsRequests (main env defaultFlags).trace = [] := by
  have hd : defaultServerName defaultFlags = some { defaultFlags with serverName := "localhost" } := by
    decide
  refine ⟨rfl, rfl, rfl, rfl, rfl, rfl, by decide, ?_, ?_, ?_⟩ <;>
    simp only [main, hd, tlsSetup] <;>
    rcases handlers_cases (C := C) defaultFlags.metricsPath with hh | hh | hh <;>
      simp only [hh] <;>
      cases env.ListenAndServe defaultFlags.listenAddress defaultFlags.webConfig <;>
    simp [processCollectors, exporterCalls, tlsRequests, registrations, MustRegister,
      List.filterMap_append, defaultFlags, Second]

/-- C7, as stated, fails: already under the default flags the memcached
collector is registered on the default registry and the metrics handler
gathers from it, and no registry is constructed. -/
theorem default_registry_counterexample :
    ¬ (∀ rc ∈ registered (main envOk defaultFlags).trace, rc.1 ≠ Registry.default) ∧
    ¬ (∀ ph ∈ handled (main envOk defaultFlags).trace,
          ph.2 ≠ Handler.metrics Registry.default) ∧
    (Registry.default, Collector.exporterNew "localhost:11211" Second none) ∈
      registered (main envOk defaultFlags).trace ∧
    constructedRegistries (main envOk defaultFlags).trace = [] := by
  decide

/-- C7, amended: in every run, every registration made by `main` is on the
process-wide default registry, every metrics handler installed gathers from the
default registry, and `main` constructs no registry. -/
theorem registrations_use_default_registry {C : Type} (env : Env C) (flags : Flags) :
    (∀ rc ∈ registered (main env flags).trace, rc.1 = Registry.default) ∧
    (∀ pattern gatherer, (pattern, Handler.metrics gatherer) ∈ handled (main env flags).trace →
      gatherer = Registry.default) ∧
    constructedRegistries (main env flags).trace = [] := by
  obtain ⟨name, hd, -, -⟩ := defaultServerName_some flags
  simp only [main, hd, tlsSetup, tlsConfigLiteral]
  by_cases ht : flags.enableTls = true
  · simp only [ht, if_true]
    cases env.NewTLSConfig _ with
    | error err => simp [registered, handled, constructedRegistries]
    | ok cfg =>
      rcases handlers_cases (C := C) flags.metricsPath with hh | hh | hh <;>
        simp only [hh] <;>
        cases env.ListenAndServe flags.listenAddress flags.webConfig <;>
        by_cases hp : flags.pidFile = "" <;>
        simp [registered, handled, constructedRegistries, registrations, MustRegister,
          promhttpHandler, List.filterMap_append, hp]
  · simp only [ht, if_false]
    rcases handlers_cases (C := C) flags.metricsPath with hh | hh | hh <;>
      simp only [hh] <;>
      cases env.ListenAndServe flags.listenAddress flags.webConfig <;>
      by_cases hp : flags.pidFile = "" <;>
      simp [registered, handled, constructedRegistries, registrations, MustRegister,
        promhttpHandler, List.filterMap_append, hp]

/-- C8: with an empty `memcached.tls.servername`, for every address element 0
of `strings.Split(address, ":")` exists, so the run does not end in the
index-out-of-range panic of line 63, and it is the server name in effect.  It is a prefix of the address without ':', every prefix
of the address without ':' is a prefix of it (it is the longest), it is followed
by the first ':' when the address has one and is the whole address otherwise;
for an address `host:port` with no ':' in `host` it is `host`; for the empty
address it is empty; for "[::1]:11211" it is "[". -/
theorem derived_server_name {C : Type} (env : Env C) (flags : Flags)
    (h : flags.serverName = "") :
    (main env flags).outcome ≠ Outcome.panicked Panic.indexOutOfRange ∧
    (∃ name : String,
      (Split flags.address ':')[0]? = some name ∧
      effectiveServerName flags = some name ∧
      name.data <+: flags.address.data ∧
      ':' ∉ name.data ∧
      (∀ p : List Char, p <+: flags.address.data → ':' ∉ p →
        p <+: name.data ∧ p.length ≤ name.length) ∧
      (':' ∈ flags.address.data → ∃ rest, flags.address.data = name.data ++ ':' :: rest) ∧
      (':' ∉ flags.address.data → name = flags.address) ∧
      (∀ host port : String, ':' ∉ host.data → flags.address = host ++ ":" ++ port →
        name = host)) ∧
    effectiveServerName { flags with address := "" } = some "" ∧
    effectiveServerName { flags with address := "[::1]:11211" } = some "[" := by
  obtain ⟨name, hd, -, hname⟩ := defaultServerName_some flags
  have hn := hname h
  have hdata : name.data = flags.address.data.takeWhile (fun x => decide (x ≠ ':')) := by
    rw [hn]
  refine ⟨?_, ⟨name, ?_, ?_, ?_, ?_, ?_, ?_, ?_, ?_⟩, ?_, ?_⟩
  · simp only [main, hd]
    cases tlsSetup env { flags with serverName := name } with
    | mk t1 r =>
      cases r with
      | error code => simp
      | ok cfg =>
        rcases handlers_cases (C := C) flags.metricsPath with hh | hh | hh <;>
          simp only [hh] <;>
          cases env.ListenAndServe flags.listenAddress flags.webConfig <;>
          simp
  · rw [split_zero, hn]
  · simp [effectiveServerName, hd]
  · rw [hdata]
    exact List.takeWhile_prefix _
  · rw [hdata]
    exact takeWhile_ne_not_mem _ _
  · intro p hp hc
    have hpre := takeWhile_ne_prefix_max ':' flags.address.data p hp hc
    rw [← hdata] at hpre
    exact ⟨hpre, hpre.length_le⟩
  · intro hmem
    rw [hdata]
    exact takeWhile_ne_before_first _ _ hmem
  · intro hnot
    rw [hn, takeWhile_of_not_mem hnot]
  · intro host port hhost haddr
    have hl : flags.address.data = host.data ++ ':' :: port.data := by
      rw [haddr]
      simp [String.data_append]
    rw [hn, hl, takeWhile_ne_append _ _ _ hhost]
  · have e : (Split "" ':')[0]? = some "" := by decide
    simp [effectiveServerName, defaultServerName, h, e]
  · have e : (Split "[::1]:11211" ':')[0]? = some "[" := by decide
    simp [effectiveServerName, defaultServerName, h, e]

/-- C8, at a concrete input: the default flags, whose server name is empty. -/
theorem derived_server_name_witness :
    (main envOk defaultFlags).outcome ≠ Outcome.panicked Panic.indexOutOfRange ∧
    (∃ name : String,
      (Split "localhost:11211" ':')[0]? = some name ∧
      effectiveServerName defaultFlags = some name ∧
      name.data <+: "localhost:11211".data ∧
      ':' ∉ name.data ∧
      (∀ p : List Char, p <+: "localhost:11211".data → ':' ∉ p →
        p <+: name.data ∧ p.length ≤ name.length) ∧
      (':' ∈ "localhost:11211".data →
        ∃ rest, "localhost:11211".data = name.data ++ ':' :: rest) ∧
      (':' ∉ "localhost:11211".data → name = "localhost:11211") ∧
      (∀ host port : String, ':' ∉ host.data → "localhost:11211" = host ++ ":" ++ port →
        name = host)) ∧
    effectiveServerName { defaultFlags with address := "" } = some "" ∧
    effectiveServerName { defaultFlags with address := "[::1]:11211" } = some "[" :=
  derived_server_name envOk defaultFlags rfl

/-- C9: with TLS enabled, let the request be the struct literal of lines 70-76
built from the flags after lines 62-64.  If `promconfig.NewTLSConfig` returns an
error for it, the failure is logged, the process exits with status 1, and the
run holds no registration, no HTTP handler and no listener.  If it returns a
configuration, registration is reached and the memcached collector is built
with the flag address, the flag timeout and exactly that configuration. -/
theorem tls_failure_is_fatal {C : Type} (env : Env C) (flags : Flags)
    (h : flags.enableTls = true) :
    ∃ flags1 : Flags,
      defaultServerName flags = some flags1 ∧
      (∀ err, env.NewTLSConfig (tlsConfigLiteral flags1) = Except.error err →
        (main env flags).outcome = Outcome.exited 1 ∧
        tlsFailureLogged (main env flags) ∧
        registered (main env flags).trace = [] ∧
        handled (main env flags).trace = [] ∧
        listeners (main env flags).trace = []) ∧
      (∀ cfg, env.NewTLSConfig (tlsConfigLiteral flags1) = Except.ok cfg →
        reachesRegistration (main env flags) ∧
        exporterCalls (main env flags).trace =
          [(flags.address, flags.timeout, some cfg)]) := by
  obtain ⟨name, hd, -, -⟩ := defaultServerName_some flags
  refine ⟨_, hd, ?_, ?_⟩
  · intro err herr
    simp only [tlsConfigLiteral] at herr
    simp only [main, hd, tlsSetup, tlsConfigLiteral, h, if_true, herr, tlsFailureLogged]
    simp [registered, handled, listeners]
  · intro cfg hcfg
    simp only [tlsConfigLiteral] at hcfg
    simp only [main, hd, tlsSetup, tlsConfigLiteral, h, if_true, hcfg, reachesRegistration]
    rcases handlers_cases (C := C) flags.metricsPath with hh | hh | hh <;>
      simp only [hh] <;>
      cases env.ListenAndServe flags.listenAddress flags.webConfig <;>
      simp [registered, exporterCalls, registrations, MustRegister,
        List.filterMap_append]

/-- C9, at a concrete input: TLS enabled, once in an environment where the TLS
material fails to load and once in one where it loads. -/
theorem tls_failure_is_fatal_witness :
    ((main envTlsFails { defaultFlags with enableTls := true }).outcome = Outcome.exited 1 ∧
      tlsFailureLogged (main envTlsFails { defaultFlags with enableTls := true }) ∧
      registered (main envTlsFails { defaultFlags with enableTls := true }).trace = [] ∧
      handled (main envTlsFails { defaultFlags with enableTls := true }).trace = [] ∧
      listeners (main envTlsFails { defaultFlags with enableTls := true }).trace = []) ∧
    (reachesRegistration (main envOk { defaultFlags with enableTls := true }) ∧
      exporterCalls (main envOk { defaultFlags with enableTls := true }).trace =
        [("localhost:11211", Second,
          some { CertFile := "", KeyFile := "", CAFile := "", ServerName := "localhost",
                 InsecureSkipVerify := false })]) := by
  have hd : defaultServerName { defaultFlags with enableTls := true } =
      some { defaultFlags with enableTls := true, serverName := "localhost" } := by decide
  constructor
  · obtain ⟨flags1, h1, hfail, -⟩ :=
      tls_failure_is_fatal envTlsFails { defaultFlags with enableTls := true } rfl
    exact hfail "unable to load specified CA cert" rfl
  · obtain ⟨flags1, h1, -, hok⟩ :=
      tls_failure_is_fatal envOk { defaultFlags with enableTls := true } rfl
    have e : flags1 = { defaultFlags with enableTls := true, serverName := "localhost" } :=
      Option.some.inj (h1.symm.trans hd)
    subst e
    exact hok _ rfl

end MemcachedExporter
